import Mathlib

set_option maxRecDepth 16384

/-!
Shallow embedding of the RAG document question-answering application
(src/app.py) and verification of its specification claims.

The embedding translates the session-level logic of src/app.py: the chat
input handler, get_rag_chain, initialize_vector_store, the predefined-link
ingestion handler, download_pdf's request construction, and the chunking
configuration. External collaborators (the generative model, the embedding
provider, the network and the PDF parser) are passed in as explicit
oracles; library components whose implementation is not part of the
repository (the text splitter, the Chroma store, the filesystem) are
modelled from the specification, as marked on each definition.
-/

namespace RagApp

/-- Role of a chat message, as used for st.session_state.messages entries. -/
inductive Role
  | user
  | assistant
deriving DecidableEq, Repr

/-- One entry of the session message log (a dict with role and content). -/
structure Message where
  role : Role
  content : String
deriving DecidableEq, Repr

/-- A langchain Document: page content plus the metadata fields the app
reads (source path and page number, both possibly absent). -/
structure Doc where
  pageContent : String
  source : Option String
  page : Option Nat
deriving DecidableEq, Repr

/-- The Streamlit session state fields the core logic touches:
st.session_state.messages, st.session_state.vector_store (the Chroma store,
modelled as the list of indexed documents, None before first ingestion) and
st.session_state.chat_history. -/
structure SessionState where
  messages : List Message
  vectorStore : Option (List Doc)
  chatHistory : Option (List Message)
deriving DecidableEq, Repr

/-- The dict returned by the ConversationalRetrievalChain call: answer text,
source_documents, generated_question. -/
structure ChainResponse where
  answer : String
  sourceDocuments : List Doc
  generatedQuestion : String
deriving DecidableEq, Repr

/-- The conversational chain built by get_rag_chain, reduced to the data the
claims observe: the ConversationBufferMemory contents loaded into it. -/
structure RagChain where
  memory : List Message
deriving DecidableEq, Repr

/-- Embeds get_rag_chain (src/app.py:136-167). Returns None when the vector
store is uninitialized. Otherwise it initializes
st.session_state.chat_history to the empty list when the key is absent,
loads the messages of st.session_state.chat_history into a fresh
ConversationBufferMemory (user entries as user messages, the rest as ai
messages, preserving order), and returns the chain carrying that memory. -/
def get_rag_chain (st : SessionState) : SessionState × Option RagChain :=
  match st.vectorStore with
  | none => (st, none)
  | some _ =>
    let st1 : SessionState :=
      match st.chatHistory with
      | none => { st with chatHistory := some [] }
      | some _ => st
    (st1, some { memory := st1.chatHistory.getD [] })

/-- The guidance text shown and logged when chat is used before ingestion
(src/app.py:297-298). -/
def guidanceMessage : String :=
  "Please upload or ingest documents first to enable chat functionality."

/-- The (source, page) pair rendered for one retrieved document in the
sources loop (src/app.py:313-317): metadata.get with defaults. -/
def displaySource (d : Doc) : String × String :=
  (d.source.getD "Unknown source",
   match d.page with
   | some n => toString n
   | none => "N/A")

/-- Result of one pass through the chat input handler: the updated session
state, whether the conversational chain (and with it the generative model)
was invoked, the memory the chain was built with, and the (source, page)
pairs displayed as provenance. -/
structure StepResult where
  state : SessionState
  modelCalled : Bool
  memoryUsed : Option (List Message)
  provenance : List (String × String)
deriving DecidableEq, Repr

/-- Embeds the chat input handler (src/app.py:289-323). The user message is
appended first; then, if the vector store is uninitialized, the guidance
message is logged as the assistant entry and no chain is built; otherwise
get_rag_chain is called and the chain is run on the question (runChain is
the external chain/model oracle, which may fail). On success the answer and
the sources are recorded; on failure the error text is logged as the
assistant entry. -/
def chatStep (runChain : List Message → String → Except String ChainResponse)
    (st : SessionState) (prompt : String) : StepResult :=
  let stU : SessionState :=
    { st with messages := st.messages ++ [{ role := Role.user, content := prompt }] }
  match st.vectorStore with
  | none =>
    { state := { stU with
        messages := stU.messages ++ [{ role := Role.assistant, content := guidanceMessage }] },
      modelCalled := false, memoryUsed := none, provenance := [] }
  | some _ =>
    let pr := get_rag_chain stU
    match pr.2 with
    | none =>
      { state := { pr.1 with
          messages := pr.1.messages ++
            [{ role := Role.assistant, content := "RAG chain could not be initialized." }] },
        modelCalled := false, memoryUsed := none, provenance := [] }
    | some chain =>
      match runChain chain.memory prompt with
      | Except.ok resp =>
        { state := { pr.1 with
            messages := pr.1.messages ++ [{ role := Role.assistant, content := resp.answer }] },
          modelCalled := true, memoryUsed := some chain.memory,
          provenance :=
            if resp.sourceDocuments.isEmpty then []
            else resp.sourceDocuments.map displaySource }
      | Except.error e =>
        { state := { pr.1 with
            messages := pr.1.messages ++
              [{ role := Role.assistant, content := "An error occurred: " ++ e }] },
          modelCalled := true, memoryUsed := some chain.memory, provenance := [] }

/-- Sample indexed document shared by the concrete witnesses below. -/
def dDemo : Doc :=
  { pageContent := "The PowerEdge R660xs is a 1U rack server."
    source := some "downloaded_pdfs/r660xs.pdf"
    page := some 0 }

/-- A chain oracle that always succeeds with a fixed response. -/
def okOracle : List Message → String → Except String ChainResponse :=
  fun _ _ =>
    Except.ok
      { answer := "It is a Dell server."
        sourceDocuments := [dDemo]
        generatedQuestion := "What is the Dell PowerEdge R660xs?" }

/-- A chain oracle that always fails with a fixed error. -/
def errOracle : List Message → String → Except String ChainResponse :=
  fun _ _ => Except.error "Ollama call failed: connection refused"

/-- A session whose vector store holds one document and whose logs are empty. -/
def stReady : SessionState :=
  { messages := [], vectorStore := some [dDemo], chatHistory := none }

/-- A fresh session: no messages, no vector store, no chat history. -/
def stEmpty : SessionState :=
  { messages := [], vectorStore := none, chatHistory := none }

/-- Modelled from the spec: the Chunker's sliding-window split. The split
implementation the code calls (langchain's RecursiveCharacterTextSplitter
with chunk_size 1000 and chunk_overlap 200, src/app.py:92) is library code
not under src, so it is modelled from the specification's words: fixed
window size 1000, fixed overlap 200, hence a stride of 800. The fuel
argument (started at the text length by chunkWindows) only drives
structural termination and is never exhausted. -/
def chunkWindowsAux : Nat → List Char → List (List Char)
  | 0, s => [s]
  | fuel + 1, s =>
    if s.length ≤ 1000 then [s]
    else s.take 1000 :: chunkWindowsAux fuel (s.drop 800)

/-- Modelled from the spec: the chunk sequence the Chunker produces from a
document text. -/
def chunkWindows (s : List Char) : List (List Char) :=
  chunkWindowsAux s.length s

/-- A 1002-character document, which splits into two overlapping windows. -/
def demoText : List Char := List.replicate 1002 'a'

/-- ASCII lowercasing of one character, as Python str.lower acts on the
ASCII range. -/
def asciiLower (c : Char) : Char :=
  if 'A' ≤ c ∧ c ≤ 'Z' then Char.ofNat (c.toNat + 32) else c

/-- Python str.endswith on character lists. -/
def endsWithL (s suff : List Char) : Bool :=
  decide (s.drop (s.length - suff.length) = suff)

/-- The remainder of the text after the first occurrence of pat, if any. -/
def afterSeq (pat : List Char) : List Char → Option (List Char)
  | [] => none
  | c :: cs =>
    if pat.isPrefixOf (c :: cs) then some ((c :: cs).drop pat.length)
    else afterSeq pat cs

/-- Cut the text at the first query or fragment delimiter. -/
def takeUntilQF (s : List Char) : List Char :=
  s.takeWhile (fun c => ¬ (c = '?' ∨ c = '#'))

/-- urlparse(url).path for an absolute URL: the part after the scheme and
the authority, up to the query or fragment. -/
def urlPathL (u : List Char) : List Char :=
  match afterSeq [':', '/', '/'] u with
  | some rest => takeUntilQF (rest.dropWhile (fun c => c ≠ '/'))
  | none => takeUntilQF u

/-- os.path.basename: the component after the last slash. -/
def basenameL (p : List Char) : List Char :=
  (p.reverse.takeWhile (fun c => c ≠ '/')).reverse

/-- The check the ingestion loop applies to each link (src/app.py:250):
url.lower().endswith(".pdf"), on the whole URL string. -/
def isPdfUrl (url : String) : Bool :=
  endsWithL (url.data.map asciiLower) ".pdf".data

/-- The local path download_pdf writes to (src/app.py:251-252):
os.path.join(PDF_DOWNLOAD_DIR, os.path.basename(urlparse(url).path)). -/
def outputPath (url : String) : String :=
  String.mk ("downloaded_pdfs/".data ++ basenameL (urlPathL url.data))

/-- An HTTP GET request as issued through the requests library: target url,
whether the body is streamed, and the timeout argument if one is passed. -/
structure HttpRequest where
  url : String
  stream : Bool
  timeout : Option Nat
deriving DecidableEq, Repr

/-- Embeds the request construction in download_pdf (src/app.py:73):
requests.get(url, stream=True). No timeout argument is passed, so the
timeout field is none. -/
def downloadRequest (url : String) : HttpRequest :=
  { url := url, stream := true, timeout := none }

/-- External collaborators of the ingestion path: whether the HTTP GET for
a url succeeds, the bytes it serves, and the chunks load_and_split_pdf
extracts from a local file (the empty list on parse failure,
src/app.py:96-98). -/
structure FetchEnv where
  fetchOk : String → Bool
  body : String → String
  parse : String → List Doc

/-- The download directory contents: pairs of path and stored bytes. -/
abbrev Files := List (String × String)

/-- Modelled from the spec: writing a file at a path (open(path, "wb") in
download_pdf, src/app.py:75) — the filesystem layer is not under src.
A collision overwrites the entry in place; otherwise a new entry is
appended. -/
def writeFile (fs : Files) (p content : String) : Files :=
  if fs.any (fun e => e.1 = p) then
    fs.map (fun e => if e.1 = p then (p, content) else e)
  else fs ++ [(p, content)]

/-- Per-item outcome of the predefined-documents ingestion loop. -/
inductive ItemOutcome
  | skippedNonPdf
  | fetchFailed
  | ingested (chunks : List Doc)
deriving DecidableEq, Repr

/-- The chunks an item contributes to the batch. -/
def chunksOf : ItemOutcome → List Doc
  | ItemOutcome.ingested cs => cs
  | _ => []

/-- Embeds one iteration of the Ingest Pre-defined Documents loop
(src/app.py:248-260): a url whose lowercased text does not end in ".pdf"
is skipped with no request issued; otherwise download_pdf runs (writing the
fetched bytes to the derived path on success) and, when it succeeds,
load_and_split_pdf produces the item's chunks. The Bool records whether a
network request was issued. -/
def processUrl (env : FetchEnv) (fs : Files) (url : String) :
    ItemOutcome × Bool × Files :=
  if isPdfUrl url then
    if env.fetchOk url then
      (ItemOutcome.ingested (env.parse (outputPath url)), true,
       writeFile fs (outputPath url) (env.body url))
    else (ItemOutcome.fetchFailed, true, fs)
  else (ItemOutcome.skippedNonPdf, false, fs)

/-- Embeds the whole Ingest Pre-defined Documents loop over a batch of urls
(src/app.py:247-260): per-item outcomes with the network flag, the
accumulated chunks of all items in order, and the final download
directory. -/
def ingestBatch (env : FetchEnv) : Files → List String →
    List (ItemOutcome × Bool) × List Doc × Files
  | fs, [] => ([], [], fs)
  | fs, url :: rest =>
    let r := processUrl env fs url
    let t := ingestBatch env r.2.2 rest
    ((r.1, r.2.1) :: t.1, chunksOf r.1 ++ t.2.1, t.2.2)

/-- The outcome an item with the given url gets, independent of the
download directory state. -/
def itemTag (env : FetchEnv) (url : String) : ItemOutcome × Bool :=
  if isPdfUrl url then
    if env.fetchOk url then (ItemOutcome.ingested (env.parse (outputPath url)), true)
    else (ItemOutcome.fetchFailed, true)
  else (ItemOutcome.skippedNonPdf, false)

/-- Embeds initialize_vector_store (src/app.py:116-134): with a non-empty
batch, an existing store has the documents added (Chroma add_documents,
modelled from the spec as appending) and an absent store is created from
exactly the batch; with an empty batch nothing changes. -/
def initialize_vector_store (st : SessionState) (docs : List Doc) : SessionState :=
  if docs.isEmpty then st
  else
    match st.vectorStore with
    | some store => { st with vectorStore := some (store ++ docs) }
    | none => { st with vectorStore := some docs }

/-- Embeds the Ingest Pre-defined Documents handler for one selected batch
(src/app.py:244-266): run the loop, then pass the accumulated chunks to
initialize_vector_store when any were produced. -/
def ingestPredefined (env : FetchEnv) (st : SessionState) (fs : Files)
    (urls : List String) : SessionState × Files :=
  let r := ingestBatch env fs urls
  (if r.2.1.isEmpty then st else initialize_vector_store st r.2.1, r.2.2)

/-- A predefined remote reference whose URL ends in ".pdf" (src/app.py:35). -/
def pdfUrl : String :=
  "https://dl.dell.com/manuals/common/dellemc-server-config-profile-refguide.pdf"

/-- A predefined webpage reference (src/app.py:61). -/
def webUrl : String := "https://www.dell.com/en-us/lp/dt/end-user-computing"

/-- A URL whose path does not end in ".pdf" although the URL string does. -/
def trickyUrl : String := "https://example.com/page?download=.pdf"

/-- An environment where every fetch succeeds and parsing yields nothing. -/
def allowAllEnv : FetchEnv :=
  { fetchOk := fun _ => true, body := fun _ => "", parse := fun _ => [] }

/-- An environment where every fetch fails. -/
def failEnv : FetchEnv :=
  { fetchOk := fun _ => false, body := fun _ => "", parse := fun _ => [] }

/-- An environment where every fetch succeeds and every parse yields the
sample document. -/
def dupEnv : FetchEnv :=
  { fetchOk := fun _ => true, body := fun _ => "BYTES", parse := fun _ => [dDemo] }

/-- C1: a question asked while the vector store is uninitialized appends the
user entry and the guidance message as the assistant entry, and the chain
(hence the generative model) is never invoked. -/
theorem c1_uninitialized_ask
    (runChain : List Message → String → Except String ChainResponse)
    (st : SessionState) (prompt : String) (h : st.vectorStore = none) :
    (chatStep runChain st prompt).state.messages =
      st.messages ++ [⟨Role.user, prompt⟩, ⟨Role.assistant, guidanceMessage⟩] ∧
    (chatStep runChain st prompt).modelCalled = false := by
  obtain ⟨msgs, vstore, chist⟩ := st
  simp only [SessionState.vectorStore] at h
  subst h
  simp [chatStep]

/-- Witness for C1 at a concrete fresh session. -/
theorem c1_uninitialized_ask_witness :
    (chatStep okOracle stEmpty "What is the R660xs?").state.messages =
      stEmpty.messages ++
        [⟨Role.user, "What is the R660xs?"⟩, ⟨Role.assistant, guidanceMessage⟩] ∧
    (chatStep okOracle stEmpty "What is the R660xs?").modelCalled = false :=
  c1_uninitialized_ask okOracle stEmpty "What is the R660xs?" rfl

/-- C2 (code bug witness): after one completed (question, answer) turn —
which the handler records in st.session_state.messages — the memory supplied
to the chain for the next question is still empty, because get_rag_chain
loads it from st.session_state.chat_history, which no code path ever
appends to. -/
theorem c2_memory_always_empty :
    (chatStep okOracle stReady "What is the R660xs?").state.messages =
      [⟨Role.user, "What is the R660xs?"⟩, ⟨Role.assistant, "It is a Dell server."⟩] ∧
    (chatStep okOracle
        (chatStep okOracle stReady "What is the R660xs?").state
        "What is its price?").memoryUsed = some [] :=
  ⟨rfl, rfl⟩

/-- C10: every question submitted through the chat handler grows the message
log by exactly one user entry holding the question followed by one assistant
entry, on every branch (uninitialized store, chain failure, success). -/
theorem c10_log_grows_by_two
    (runChain : List Message → String → Except String ChainResponse)
    (st : SessionState) (prompt : String) :
    ∃ a, (chatStep runChain st prompt).state.messages =
      st.messages ++ [⟨Role.user, prompt⟩, ⟨Role.assistant, a⟩] := by
  obtain ⟨msgs, vstore, chist⟩ := st
  cases vstore with
  | none => exact ⟨guidanceMessage, by simp [chatStep]⟩
  | some vs =>
    cases chist with
    | none =>
      cases hr : runChain [] prompt with
      | ok resp =>
        exact ⟨resp.answer, by simp [chatStep, get_rag_chain, hr]⟩
      | error e =>
        exact ⟨"An error occurred: " ++ e, by simp [chatStep, get_rag_chain, hr]⟩
    | some m =>
      cases hr : runChain m prompt with
      | ok resp =>
        exact ⟨resp.answer, by simp [chatStep, get_rag_chain, hr]⟩
      | error e =>
        exact ⟨"An error occurred: " ++ e, by simp [chatStep, get_rag_chain, hr]⟩

/-- C7: when the chain/model call errors, the failure text is recorded as
the assistant entry of the conversation log (not raised past the handler),
the vector store is untouched, and a subsequent successful question on the
resulting session is answered and logged normally. -/
theorem c7_failure_logged_session_usable
    (runChain : List Message → String → Except String ChainResponse)
    (st : SessionState) (vs : List Doc) (prompt e : String)
    (h : st.vectorStore = some vs)
    (he : ∀ m q, runChain m q = Except.error e) :
    (chatStep runChain st prompt).state.messages =
      st.messages ++ [⟨Role.user, prompt⟩, ⟨Role.assistant, "An error occurred: " ++ e⟩] ∧
    (chatStep runChain st prompt).state.vectorStore = some vs ∧
    (∀ (runChain2 : List Message → String → Except String ChainResponse)
        (resp : ChainResponse) (q2 : String),
      (∀ m q, runChain2 m q = Except.ok resp) →
      (chatStep runChain2 (chatStep runChain st prompt).state q2).state.messages =
        (chatStep runChain st prompt).state.messages ++
          [⟨Role.user, q2⟩, ⟨Role.assistant, resp.answer⟩]) := by
  obtain ⟨msgs, vstore, chist⟩ := st
  simp only [SessionState.vectorStore] at h
  subst h
  refine ⟨?_, ?_, ?_⟩
  · cases chist <;> simp [chatStep, get_rag_chain, he]
  · cases chist <;> simp [chatStep, get_rag_chain, he]
  · intro runChain2 resp q2 ho
    cases chist <;> simp [chatStep, get_rag_chain, he, ho]

/-- Witness for C7 at a concrete ready session and failing oracle. -/
theorem c7_failure_logged_session_usable_witness :
    (chatStep errOracle stReady "What is the R660xs?").state.messages =
      stReady.messages ++
        [⟨Role.user, "What is the R660xs?"⟩,
         ⟨Role.assistant, "An error occurred: Ollama call failed: connection refused"⟩] ∧
    (chatStep errOracle stReady "What is the R660xs?").state.vectorStore = some [dDemo] ∧
    (∀ (runChain2 : List Message → String → Except String ChainResponse)
        (resp : ChainResponse) (q2 : String),
      (∀ m q, runChain2 m q = Except.ok resp) →
      (chatStep runChain2 (chatStep errOracle stReady "What is the R660xs?").state q2).state.messages =
        (chatStep errOracle stReady "What is the R660xs?").state.messages ++
          [⟨Role.user, q2⟩, ⟨Role.assistant, resp.answer⟩]) :=
  c7_failure_logged_session_usable errOracle stReady [dDemo]
    "What is the R660xs?" "Ollama call failed: connection refused" rfl (fun _ _ => rfl)

/-- The provenance displayed by a successful pass of the chat handler is the
metadata of the chain's source_documents, in order (empty when the chain
returned no source documents). -/
theorem chatStep_provenance_eq
    (runChain : List Message → String → Except String ChainResponse)
    (st : SessionState) (vs : List Doc) (prompt : String) (resp : ChainResponse)
    (h : st.vectorStore = some vs)
    (ho : ∀ m q, runChain m q = Except.ok resp) :
    (chatStep runChain st prompt).provenance =
      if resp.sourceDocuments.isEmpty then []
      else resp.sourceDocuments.map displaySource := by
  obtain ⟨msgs, vstore, chist⟩ := st
  simp only [SessionState.vectorStore] at h
  subst h
  cases chist <;> simp [chatStep, get_rag_chain, ho]

/-- C8: every (source, page) pair displayed as provenance of a successful
ask corresponds, at the same position, to a document actually returned as
retrieved source for that query; retrieval order is preserved. -/
theorem c8_provenance_from_retrieved
    (runChain : List Message → String → Except String ChainResponse)
    (st : SessionState) (vs : List Doc) (prompt : String) (resp : ChainResponse)
    (h : st.vectorStore = some vs)
    (ho : ∀ m q, runChain m q = Except.ok resp) :
    ∀ (i : Nat) (pr : String × String),
      (chatStep runChain st prompt).provenance[i]? = some pr →
      ∃ d, resp.sourceDocuments[i]? = some d ∧ pr = displaySource d := by
  intro i pr hp
  rw [chatStep_provenance_eq runChain st vs prompt resp h ho] at hp
  by_cases hemp : resp.sourceDocuments.isEmpty
  · simp [hemp] at hp
  · simp only [hemp, if_neg, Bool.false_eq_true, ite_false, List.getElem?_map] at hp
    obtain ⟨d, hd, hpd⟩ := Option.map_eq_some'.mp hp
    exact ⟨d, hd, hpd.symm⟩

/-- Witness for C8: the one displayed pair of a concrete successful ask is
the metadata of the one retrieved document. -/
theorem c8_provenance_from_retrieved_witness :
    ∃ d, ([dDemo])[0]? = some d ∧
      ("downloaded_pdfs/r660xs.pdf", "0") = displaySource d :=
  c8_provenance_from_retrieved okOracle stReady [dDemo] "What is the R660xs?"
    { answer := "It is a Dell server."
      sourceDocuments := [dDemo]
      generatedQuestion := "What is the Dell PowerEdge R660xs?" }
    rfl (fun _ _ => rfl) 0 ("downloaded_pdfs/r660xs.pdf", "0") rfl

/-- Every window the chunker produces has at most 1000 characters. -/
theorem chunkWindowsAux_mem_length :
    ∀ (fuel : Nat) (s : List Char), s.length ≤ 800 * fuel + 1000 →
    ∀ c ∈ chunkWindowsAux fuel s, c.length ≤ 1000 := by
  intro fuel
  induction fuel with
  | zero =>
    intro s hf c hc
    simp [chunkWindowsAux] at hc
    subst hc
    omega
  | succ n ih =>
    intro s hf c hc
    by_cases hlen : s.length ≤ 1000
    · simp [chunkWindowsAux, hlen] at hc
      subst hc
      exact hlen
    · simp [chunkWindowsAux, hlen] at hc
      rcases hc with hc | hc
      · subst hc
        simp [List.length_take]
      · exact ih (s.drop 800) (by simp [List.length_drop]; omega) c hc

/-- Positional coverage: every character position of the text appears in
some window, at the offset determined by the 800-character stride. -/
theorem chunkWindowsAux_cover :
    ∀ (fuel : Nat) (s : List Char), s.length ≤ 800 * fuel + 1000 →
    ∀ i : Nat, i < s.length →
    ∃ j k : Nat, 800 * j + k = i ∧
      ∃ w : List Char, (chunkWindowsAux fuel s)[j]? = some w ∧ w[k]? = s[i]? := by
  intro fuel
  induction fuel with
  | zero =>
    intro s hf i hi
    exact ⟨0, i, by omega, s, by simp [chunkWindowsAux], rfl⟩
  | succ n ih =>
    intro s hf i hi
    by_cases hlen : s.length ≤ 1000
    · exact ⟨0, i, by omega, s, by simp [chunkWindowsAux, hlen], rfl⟩
    · by_cases hi8 : i < 800
      · refine ⟨0, i, by omega, s.take 1000, by simp [chunkWindowsAux, hlen], ?_⟩
        exact List.getElem?_take_of_lt (by omega)
      · obtain ⟨j, k, hjk, c, hc, hck⟩ :=
          ih (s.drop 800) (by simp [List.length_drop]; omega) (i - 800)
            (by simp [List.length_drop]; omega)
        refine ⟨j + 1, k, by omega, c, ?_, ?_⟩
        · simpa [chunkWindowsAux, hlen] using hc
        · rw [hck, List.getElem?_drop]
          have hik : 800 + (i - 800) = i := by omega
          rw [hik]

/-- The first window is always the first 1000 characters of the text. -/
theorem chunkWindowsAux_head :
    ∀ (fuel : Nat) (s : List Char), s.length ≤ 800 * fuel + 1000 →
    (chunkWindowsAux fuel s)[0]? = some (s.take 1000) := by
  intro fuel
  cases fuel with
  | zero =>
    intro s hf
    rw [List.take_of_length_le (by omega)]
    rfl
  | succ n =>
    intro s hf
    by_cases hlen : s.length ≤ 1000
    · rw [List.take_of_length_le hlen]
      simp [chunkWindowsAux, hlen]
    · simp [chunkWindowsAux, hlen]

/-- Exact overlap: the last 200 characters of each window are the first 200
characters of the following window. -/
theorem chunkWindowsAux_overlap :
    ∀ (fuel : Nat) (s : List Char), s.length ≤ 800 * fuel + 1000 →
    ∀ (j : Nat) (c₁ c₂ : List Char),
      (chunkWindowsAux fuel s)[j]? = some c₁ →
      (chunkWindowsAux fuel s)[j + 1]? = some c₂ →
      c₁.drop (c₁.length - 200) = c₂.take 200 := by
  intro fuel
  induction fuel with
  | zero =>
    intro s hf j c₁ c₂ h1 h2
    simp [chunkWindowsAux] at h2
  | succ n ih =>
    intro s hf j c₁ c₂ h1 h2
    by_cases hlen : s.length ≤ 1000
    · simp [chunkWindowsAux, hlen] at h2
    · simp only [chunkWindowsAux, hlen, if_neg, not_false_iff, ite_false] at h1 h2
      cases j with
      | zero =>
        simp only [List.getElem?_cons_zero, Option.some.injEq] at h1
        simp only [List.getElem?_cons_succ] at h2
        have hhead := chunkWindowsAux_head n (s.drop 800)
          (by simp [List.length_drop]; omega)
        rw [hhead, Option.some.injEq] at h2
        subst h1
        subst h2
        have hlen1 : (List.take 1000 s).length = 1000 := by
          rw [List.length_take]
          omega
        rw [hlen1, List.drop_take, List.take_take]
        norm_num
      | succ j' =>
        simp only [List.getElem?_cons_succ] at h1 h2
        exact ih (s.drop 800) (by simp [List.length_drop]; omega) j' c₁ c₂ h1 h2

/-- C3: for every document text, the chunker's windows jointly cover all of
the text (each position i lies in window i / 800 at offset i % 800), each
window has at most 1000 characters, and every pair of consecutive windows
overlaps by exactly 200 characters. -/
theorem c3_chunker_windows (s : List Char) :
    (∀ c ∈ chunkWindows s, c.length ≤ 1000) ∧
    (∀ i : Nat, i < s.length → ∃ j k : Nat, 800 * j + k = i ∧
      ∃ w : List Char, (chunkWindows s)[j]? = some w ∧ w[k]? = s[i]?) ∧
    (∀ (j : Nat) (c₁ c₂ : List Char),
      (chunkWindows s)[j]? = some c₁ → (chunkWindows s)[j + 1]? = some c₂ →
      c₁.drop (c₁.length - 200) = c₂.take 200) := by
  have hf : s.length ≤ 800 * s.length + 1000 := by omega
  exact ⟨chunkWindowsAux_mem_length s.length s hf,
         chunkWindowsAux_cover s.length s hf,
         chunkWindowsAux_overlap s.length s hf⟩

/-- Witness for C3 on the concrete 1002-character document: position 801 is
covered, and the two produced windows overlap by exactly 200 characters. -/
theorem c3_chunker_windows_witness :
    (∃ j k : Nat, 800 * j + k = 801 ∧
      ∃ w : List Char, (chunkWindows demoText)[j]? = some w ∧ w[k]? = demoText[801]?) ∧
    (List.replicate 1000 'a').drop ((List.replicate 1000 'a').length - 200) =
      (List.replicate 202 'a').take 200 :=
  ⟨(c3_chunker_windows demoText).2.1 801 (by simp [demoText]),
   (c3_chunker_windows demoText).2.2 0 (List.replicate 1000 'a')
     (List.replicate 202 'a') (by decide) (by decide)⟩

/-- The outcome list of the batch is the per-url tag list: every url gets
exactly one recorded outcome, independent of the download directory. -/
theorem ingestBatch_items (env : FetchEnv) :
    ∀ (urls : List String) (fs : Files),
      (ingestBatch env fs urls).1 = urls.map (itemTag env) := by
  intro urls
  induction urls with
  | nil => intro fs; rfl
  | cons url rest ih =>
    intro fs
    simp only [ingestBatch, List.map_cons, ih]
    refine congrArg (fun p => p :: rest.map (itemTag env)) ?_
    simp only [processUrl, itemTag]
    by_cases hp : isPdfUrl url <;> by_cases hk : env.fetchOk url <;> simp [hp, hk]

/-- The accumulated chunks are the concatenation of each item's chunks, in
batch order. -/
theorem ingestBatch_docs (env : FetchEnv) :
    ∀ (urls : List String) (fs : Files),
      (ingestBatch env fs urls).2.1 =
        (urls.map (fun url => chunksOf (itemTag env url).1)).flatten := by
  intro urls
  induction urls with
  | nil => intro fs; rfl
  | cons url rest ih =>
    intro fs
    simp only [ingestBatch, List.map_cons, List.flatten_cons, ih]
    refine congrArg (fun cs => cs ++ _) ?_
    simp only [processUrl, itemTag]
    by_cases hp : isPdfUrl url <;> by_cases hk : env.fetchOk url <;> simp [hp, hk, chunksOf]

/-- C4 counterexample: for a reference whose URL path does not end in .pdf
but whose URL string does, the loop does not record it as skipped (it
issues the network request), refuting the claim's path-based condition. -/
theorem c4_counterexample :
    ¬ (endsWithL ((urlPathL trickyUrl.data).map asciiLower) ".pdf".data = false →
       (ingestBatch allowAllEnv [] [trickyUrl]).1[0]? =
         some (ItemOutcome.skippedNonPdf, false)) := by
  decide

/-- C4 (amended): an item is skipped, with no request issued, exactly when
the lowercased URL string does not end in ".pdf"; a fetch failure is
recorded and contributes no chunks; a parse failure contributes no chunks;
every item of the batch gets exactly one recorded outcome (the batch never
aborts) and the accumulated chunks are the per-item chunks in order. -/
theorem c4_batch_isolation (env : FetchEnv) (fs : Files) (urls : List String) :
    (ingestBatch env fs urls).1.length = urls.length ∧
    (∀ (i : Nat) (url : String), urls[i]? = some url → isPdfUrl url = false →
      (ingestBatch env fs urls).1[i]? = some (ItemOutcome.skippedNonPdf, false)) ∧
    (∀ (i : Nat) (url : String), urls[i]? = some url → isPdfUrl url = true →
      env.fetchOk url = false →
      (ingestBatch env fs urls).1[i]? = some (ItemOutcome.fetchFailed, true)) ∧
    (∀ (i : Nat) (url : String), urls[i]? = some url → isPdfUrl url = true →
      env.fetchOk url = true → env.parse (outputPath url) = [] →
      (ingestBatch env fs urls).1[i]? = some (ItemOutcome.ingested [], true)) ∧
    (ingestBatch env fs urls).2.1 =
      ((ingestBatch env fs urls).1.map (fun p => chunksOf p.1)).flatten := by
  refine ⟨?_, ?_, ?_, ?_, ?_⟩
  · rw [ingestBatch_items]
    exact List.length_map urls (itemTag env)
  · intro i url hi hp
    rw [ingestBatch_items, List.getElem?_map, hi]
    simp [itemTag, hp]
  · intro i url hi hp hk
    rw [ingestBatch_items, List.getElem?_map, hi]
    simp [itemTag, hp, hk]
  · intro i url hi hp hk hparse
    rw [ingestBatch_items, List.getElem?_map, hi]
    simp [itemTag, hp, hk, hparse]
  · rw [ingestBatch_docs, ingestBatch_items, List.map_map]
    rfl

/-- Witness for C4 on a concrete two-item batch where every fetch fails:
both items get outcomes, the webpage is skipped without a request, the pdf
fetch failure is recorded. -/
theorem c4_batch_isolation_witness :
    (ingestBatch failEnv [] [pdfUrl, webUrl]).1.length = [pdfUrl, webUrl].length ∧
    (ingestBatch failEnv [] [pdfUrl, webUrl]).1[1]? =
      some (ItemOutcome.skippedNonPdf, false) ∧
    (ingestBatch failEnv [] [pdfUrl, webUrl]).1[0]? =
      some (ItemOutcome.fetchFailed, true) :=
  ⟨(c4_batch_isolation failEnv [] [pdfUrl, webUrl]).1,
   (c4_batch_isolation failEnv [] [pdfUrl, webUrl]).2.1 1 webUrl rfl (by decide),
   (c4_batch_isolation failEnv [] [pdfUrl, webUrl]).2.2.1 0 pdfUrl rfl (by decide) rfl⟩

/-- C5: inserting a non-empty batch creates the store holding exactly the
batch when none exists, appends the batch when one exists, and keeps every
previously indexed document present. -/
theorem c5_insert_additive (st : SessionState) (docs : List Doc) (h : docs ≠ []) :
    (st.vectorStore = none →
      (initialize_vector_store st docs).vectorStore = some docs) ∧
    (∀ s, st.vectorStore = some s →
      (initialize_vector_store st docs).vectorStore = some (s ++ docs)) ∧
    (∀ s d, st.vectorStore = some s → d ∈ s →
      ∃ t, (initialize_vector_store st docs).vectorStore = some t ∧ d ∈ t) := by
  have hne : docs.isEmpty = false := by
    simpa [List.isEmpty_iff] using h
  refine ⟨?_, ?_, ?_⟩
  · intro h0
    simp [initialize_vector_store, hne, h0]
  · intro s hs
    simp [initialize_vector_store, hne, hs]
  · intro s d hs hd
    exact ⟨s ++ docs, by simp [initialize_vector_store, hne, hs],
      List.mem_append_left _ hd⟩

/-- Witness for C5: inserting into a fresh session creates the store with
exactly the batch. -/
theorem c5_insert_additive_witness :
    (initialize_vector_store stEmpty [dDemo]).vectorStore = some [dDemo] :=
  (c5_insert_additive stEmpty [dDemo] (by decide)).1 rfl

/-- C6 counterexample: the GET issued by download_pdf carries no timeout
bound at all. -/
theorem c6_counterexample :
    ¬ ∃ b : Nat, (downloadRequest pdfUrl).timeout = some b := by
  rintro ⟨b, hb⟩
  simp [downloadRequest] at hb

/-- C6 (amended): every remote fetch issues its HTTP GET with streaming
enabled and no timeout argument, so no bound on a hung server is
configured. -/
theorem c6_no_timeout (url : String) :
    (downloadRequest url).timeout = none ∧ (downloadRequest url).stream = true :=
  ⟨rfl, rfl⟩

/-- C9: ingesting the same reference twice into a fresh session leaves two
copies of its chunks in the index, while the download directory holds a
single, overwritten entry for the derived path. -/
theorem c9_reingest_duplicates (env : FetchEnv) (st : SessionState) (url : String)
    (h0 : st.vectorStore = none) (h1 : isPdfUrl url = true)
    (h2 : env.fetchOk url = true) (h3 : env.parse (outputPath url) ≠ []) :
    ((ingestPredefined env
        (ingestPredefined env st [] [url]).1
        (ingestPredefined env st [] [url]).2 [url]).1.vectorStore =
      some (env.parse (outputPath url) ++ env.parse (outputPath url))) ∧
    ((ingestPredefined env
        (ingestPredefined env st [] [url]).1
        (ingestPredefined env st [] [url]).2 [url]).2 =
      [(outputPath url, env.body url)]) := by
  have hne : (env.parse (outputPath url)).isEmpty = false := by
    simpa [List.isEmpty_iff] using h3
  constructor
  · simp [ingestPredefined, ingestBatch, processUrl, h1, h2, h0, hne,
      writeFile, initialize_vector_store, chunksOf]
  · simp [ingestPredefined, ingestBatch, processUrl, h1, h2, hne,
      writeFile, chunksOf]

/-- Witness for C9 at a concrete url and environment. -/
theorem c9_reingest_duplicates_witness :
    ((ingestPredefined dupEnv
        (ingestPredefined dupEnv stEmpty [] [pdfUrl]).1
        (ingestPredefined dupEnv stEmpty [] [pdfUrl]).2 [pdfUrl]).1.vectorStore =
      some (dupEnv.parse (outputPath pdfUrl) ++ dupEnv.parse (outputPath pdfUrl))) ∧
    ((ingestPredefined dupEnv
        (ingestPredefined dupEnv stEmpty [] [pdfUrl]).1
        (ingestPredefined dupEnv stEmpty [] [pdfUrl]).2 [pdfUrl]).2 =
      [(outputPath pdfUrl, dupEnv.body pdfUrl)]) :=
  c9_reingest_duplicates dupEnv stEmpty pdfUrl rfl (by decide) rfl (by decide)

end RagApp
